import Mathlib

/-!
Shallow embedding of the LASR-Base repository (two Python source files):

* `src/skills/src/lasr_skills/detect_3d_in_area.py` — the `Detect3DInArea`
  smach state machine: an external `Detect3D` detector followed by a
  `FilterDetections` state that keeps only detections whose (x, y) pose lies
  inside a configured polygon (shapely `Polygon.contains`).
* `src/tasks/receptionist/src/receptionist/sm.py` — the `Receptionist` smach
  state machine: a linear chain of externally implemented steps.

Machine conventions of the embedding:

* smach outcomes are the strings "succeeded" / "failed"; we embed them as the
  two-constructor inductive `Outcome`.
* smach `userdata` is a mutable keyed record; we embed it as a structure with
  the one key the filter touches (`detections_3d`) plus a type parameter
  `α` standing for all remaining keys, passed through unchanged.
* shapely's `Polygon.contains(Point)` is external library code (the geometry
  backend); the embedding abstracts it as an arbitrary boolean-valued
  function `contains : Polygon → Point → Bool`, so every theorem holds for
  whatever strict-containment semantics the library implements.
* a detection is the pair `(label, pose)` exactly as the Python code
  destructures it; the code reads `pose[0]` and `pose[1]`, embedded as the
  `x` and `y` fields of `Pose`.
-/

namespace LASR

/-- smach step outcome: every state yields "succeeded" or "failed". -/
inductive Outcome where
  | succeeded
  | failed
deriving DecidableEq, Repr

/-- A 2D point, as built by `Point(pose[0], pose[1])` in the filter. -/
structure Point where
  x : ℚ
  y : ℚ
deriving DecidableEq, Repr

/-- An area polygon: an ordered sequence of 2D vertices (shapely `Polygon`
is constructed from such a vertex list; its `contains` method is abstracted
as a parameter below). -/
abbrev Polygon := List Point

/-- A detection pose; the filter reads components `pose[0]` (x) and
`pose[1]` (y); `z` stands for the rest of the 3D pose, never read. -/
structure Pose where
  x : ℚ
  y : ℚ
  z : ℚ
deriving DecidableEq, Repr

/-- A 3D detection as consumed by the filter: a `(label, pose)` pair,
matching the destructuring `for (_, pose) in userdata.detections_3d`. -/
abbrev Detection := String × Pose

/-- The smach userdata record as seen by `FilterDetections`: the
`detections_3d` key plus all other keys (`rest`), untouched by the filter. -/
structure UserData (α : Type) where
  detections_3d : List Detection
  rest : α
deriving DecidableEq, Repr

/-- The `Detect3DInArea.FilterDetections` smach state: stores the polygon
given at construction (`self.area_polygon = area_polygon`). -/
structure FilterDetections where
  area_polygon : Polygon
deriving DecidableEq, Repr

/-- Embedding of `FilterDetections.execute(self, userdata)` as a pure function.
`contains` is the geometry library's `Polygon.contains`.  Mirrors the
Python body: build the list of booleans
`satisfied_points = [contains(Point(pose[0], pose[1])) for (_, pose) in detections_3d]`,
then the index comprehension
`filtered_detections = [detections_3d[i] for i in range(0, len(detections_3d)) if satisfied_points[i]]`,
assign the result back to `userdata.detections_3d`, and return "succeeded".
Returns the (unchanged) state object, the updated userdata and the outcome. -/
def FilterDetections.execute {α : Type} (contains : Polygon → Point → Bool)
    (self : FilterDetections) (userdata : UserData α) :
    FilterDetections × UserData α × Outcome :=
  let satisfied_points : List Bool :=
    userdata.detections_3d.map fun d =>
      contains self.area_polygon (Point.mk d.2.x d.2.y)
  let filtered_detections : List Detection :=
    (List.range userdata.detections_3d.length).filterMap fun i =>
      if satisfied_points.getD i false then userdata.detections_3d[i]? else none
  (self, { userdata with detections_3d := filtered_detections }, Outcome.succeeded)

/-- The index-based comprehension
`[l[i] for i in range(len(l)) if p(l[i])]` equals `l.filter p`. -/
theorem filterMap_range_eq_filter {β : Type} (p : β → Bool) (l : List β) :
    ((List.range l.length).filterMap fun i =>
        if (l.map p).getD i false then l[i]? else none) = l.filter p := by
  induction l with
  | nil => simp
  | cons d tl ih =>
    rw [List.length_cons, List.range_succ_eq_map, List.filterMap_cons,
      List.filterMap_map]
    have hbody : ((fun i =>
        if ((d :: tl).map p).getD i false then (d :: tl)[i]? else none)
          ∘ Nat.succ) = fun i =>
        if (tl.map p).getD i false then tl[i]? else none := by
      funext i
      simp [Function.comp]
    rw [hbody, ih]
    by_cases h : p d = true
    · simp [h, List.filter_cons]
    · simp at h
      simp [h, List.filter_cons]

/-- The detections list produced by `FilterDetections.execute` is exactly the
input list filtered by membership of the (x, y) pose in the polygon. -/
theorem execute_detections_eq_filter {α : Type} (contains : Polygon → Point → Bool)
    (self : FilterDetections) (u : UserData α) :
    (FilterDetections.execute contains self u).2.1.detections_3d =
      u.detections_3d.filter fun d =>
        contains self.area_polygon (Point.mk d.2.x d.2.y) := by
  unfold FilterDetections.execute
  exact filterMap_range_eq_filter _ u.detections_3d

/-- The `Detect3DInArea` composite state machine, one full execution.
The external `Detect3D` detector is an opaque collaborator; its behaviour in
one run is given by `detectResult`: the outcome it reports and the detection
list it writes to `detections_3d` on success.  The wiring mirrors
`Detect3DInArea.__init__`:
`DETECT_OBJECTS_3D: {"succeeded": "FILTER_DETECTIONS", "failed": "failed"}`,
`FILTER_DETECTIONS: {"succeeded": "succeeded", "failed": "failed"}`. -/
def Detect3DInArea.run {α : Type} (contains : Polygon → Point → Bool)
    (self : FilterDetections) (detectResult : Outcome × List Detection)
    (u : UserData α) : UserData α × Outcome :=
  match detectResult.1 with
  | Outcome.failed => (u, Outcome.failed)
  | Outcome.succeeded =>
    let u2 : UserData α := { u with detections_3d := detectResult.2 }
    let r := FilterDetections.execute contains self u2
    match r.2.2 with
    | Outcome.succeeded => (r.2.1, Outcome.succeeded)
    | Outcome.failed => (r.2.1, Outcome.failed)

/-!
The `Receptionist` state machine of `receptionist/sm.py`.  Each child state
(`Start`, `GoToWaitForPerson`, `WaitForPersonInArea`, …) is an external,
opaque step that reports "succeeded" or "failed"; a run of the machine is
therefore driven by a script: the list of outcomes the successive step
executions report.  smach follows the registered transition for the reported
outcome; an outcome with no registered transition is an unhandled transition
(the machine cannot continue), embedded as `none`.
-/

/-- The named states of the `Receptionist` machine, exactly the labels used
in `smach.StateMachine.add` (the spec calls the second one GO_TO_WAIT_AREA). -/
inductive RState where
  | START
  | GO_TO_WAIT_FOR_PERSON
  | WAIT_FOR_PERSON
  | GO_TO_PERSON
  | ASK_FOR_DRINK
  | GO_TO_SEATING_AREA
  | LOOK_FOR_SEATS
  | END
deriving DecidableEq, Fintype, Repr

/-- The transition table of `Receptionist.__init__`, one clause per wired
`transitions=` entry: given the current state and the outcome its step
reported, the next state (`Sum.inl`) or a terminal machine outcome
(`Sum.inr`); `none` when no transition is wired for that outcome. -/
def receptionistTransition : RState → Outcome → Option (RState ⊕ Outcome)
  | RState.START, Outcome.succeeded =>
      some (Sum.inl RState.GO_TO_WAIT_FOR_PERSON)
  | RState.GO_TO_WAIT_FOR_PERSON, Outcome.succeeded =>
      some (Sum.inl RState.WAIT_FOR_PERSON)
  | RState.WAIT_FOR_PERSON, Outcome.succeeded =>
      some (Sum.inl RState.GO_TO_PERSON)
  | RState.WAIT_FOR_PERSON, Outcome.failed =>
      some (Sum.inr Outcome.failed)
  | RState.GO_TO_PERSON, Outcome.succeeded =>
      some (Sum.inl RState.ASK_FOR_DRINK)
  | RState.ASK_FOR_DRINK, Outcome.failed =>
      some (Sum.inl RState.ASK_FOR_DRINK)
  | RState.ASK_FOR_DRINK, Outcome.succeeded =>
      some (Sum.inl RState.GO_TO_SEATING_AREA)
  | RState.GO_TO_SEATING_AREA, Outcome.succeeded =>
      some (Sum.inl RState.LOOK_FOR_SEATS)
  | RState.LOOK_FOR_SEATS, Outcome.succeeded =>
      some (Sum.inl RState.END)
  | RState.END, Outcome.succeeded =>
      some (Sum.inr Outcome.succeeded)
  | _, _ => none

/-- Run the `Receptionist` machine from a state, driven by the script of
outcomes the successive step executions report.  Returns the trace of
executed states and the terminal machine outcome; `none` when the run is cut
short (script exhausted, or an outcome with no wired transition). -/
def runReceptionist : RState → List Outcome → Option (List RState × Outcome)
  | _, [] => none
  | s, o :: rest =>
    match receptionistTransition s o with
    | none => none
    | some (Sum.inr result) => some ([s], result)
    | some (Sum.inl s2) =>
      (runReceptionist s2 rest).map fun p => (s :: p.1, p.2)

theorem runReceptionist_cons (s : RState) (o : Outcome) (rest : List Outcome) :
    runReceptionist s (o :: rest) =
      match receptionistTransition s o with
      | none => none
      | some (Sum.inr result) => some ([s], result)
      | some (Sum.inl s2) =>
        (runReceptionist s2 rest).map fun p => (s :: p.1, p.2) := rfl

/-- Any completed run from `END` is the one-step trace ending "succeeded". -/
theorem runReceptionist_END_shape (script : List Outcome)
    (tr : List RState) (out : Outcome)
    (h : runReceptionist RState.END script = some (tr, out)) :
    tr = [RState.END] ∧ out = Outcome.succeeded := by
  match script with
  | [] => simp [runReceptionist] at h
  | o :: rest =>
    cases o <;>
      simp [runReceptionist, receptionistTransition] at h
    exact ⟨h.1.symm, h.2.symm⟩

/-- Any completed run from `LOOK_FOR_SEATS` passes through `END` once and
succeeds. -/
theorem runReceptionist_LFS_shape (script : List Outcome)
    (tr : List RState) (out : Outcome)
    (h : runReceptionist RState.LOOK_FOR_SEATS script = some (tr, out)) :
    tr = [RState.LOOK_FOR_SEATS, RState.END] ∧ out = Outcome.succeeded := by
  match script with
  | [] => simp [runReceptionist] at h
  | Outcome.failed :: rest =>
    simp [runReceptionist_cons, receptionistTransition] at h
  | Outcome.succeeded :: rest =>
    rw [runReceptionist_cons] at h
    simp only [receptionistTransition] at h
    cases hE : runReceptionist RState.END rest with
    | none => rw [hE] at h; simp at h
    | some q =>
      obtain ⟨ql, qo⟩ := q
      rw [hE] at h
      simp only [Option.map_some', Option.some.injEq, Prod.mk.injEq] at h
      obtain ⟨h1, h2⟩ := runReceptionist_END_shape rest ql qo hE
      subst h1 h2
      exact ⟨h.1.symm, h.2.symm⟩

/-- Any completed run from `GO_TO_SEATING_AREA` is the linear tail
`GO_TO_SEATING_AREA, LOOK_FOR_SEATS, END` and succeeds. -/
theorem runReceptionist_GTSA_shape (script : List Outcome)
    (tr : List RState) (out : Outcome)
    (h : runReceptionist RState.GO_TO_SEATING_AREA script = some (tr, out)) :
    tr = [RState.GO_TO_SEATING_AREA, RState.LOOK_FOR_SEATS, RState.END] ∧
      out = Outcome.succeeded := by
  match script with
  | [] => simp [runReceptionist] at h
  | Outcome.failed :: rest =>
    simp [runReceptionist_cons, receptionistTransition] at h
  | Outcome.succeeded :: rest =>
    rw [runReceptionist_cons] at h
    simp only [receptionistTransition] at h
    cases hE : runReceptionist RState.LOOK_FOR_SEATS rest with
    | none => rw [hE] at h; simp at h
    | some q =>
      obtain ⟨ql, qo⟩ := q
      rw [hE] at h
      simp only [Option.map_some', Option.some.injEq, Prod.mk.injEq] at h
      obtain ⟨h1, h2⟩ := runReceptionist_LFS_shape rest ql qo hE
      subst h1 h2
      exact ⟨h.1.symm, h.2.symm⟩

/-- The state `ASK_FOR_DRINK` self-loops on "failed": after `n` failures and one
success the run continues from `GO_TO_SEATING_AREA`, with `n + 1`
executions of `ASK_FOR_DRINK` prepended to the trace. -/
theorem runReceptionist_askForDrink_loop (n : ℕ) (rest : List Outcome) :
    runReceptionist RState.ASK_FOR_DRINK
        (List.replicate n Outcome.failed ++ Outcome.succeeded :: rest) =
      (runReceptionist RState.GO_TO_SEATING_AREA rest).map
        fun p => (List.replicate (n + 1) RState.ASK_FOR_DRINK ++ p.1, p.2) := by
  induction n with
  | zero =>
    simp [runReceptionist_cons, receptionistTransition]
  | succ n ih =>
    rw [List.replicate_succ, List.cons_append, runReceptionist_cons]
    simp only [receptionistTransition, ih, Option.map_map]
    simp only [List.replicate_succ, List.cons_append]
    rfl

/-!
Concrete fixtures used to exercise the theorems: the spec's example polygon
`[(0,0), (10,0), (10,10), (0,10)]` together with a containment test for it
(strict membership in that axis-aligned box, mirroring the library's
boundary-excluding `contains`), and the spec's example detections at poses
(5, 5) and (15, 15).
-/

def specPolygon : Polygon :=
  [Point.mk 0 0, Point.mk 10 0, Point.mk 10 10, Point.mk 0 10]

def boxContains : Polygon → Point → Bool := fun _ p =>
  decide (0 < p.x) && decide (p.x < 10) && decide (0 < p.y) && decide (p.y < 10)

def sampleData : UserData ℕ :=
  { detections_3d := [("person", Pose.mk 5 5 0), ("chair", Pose.mk 15 15 0)]
    rest := 7 }

def outsideData : UserData ℕ :=
  { detections_3d := [("chair", Pose.mk 15 15 0)], rest := 7 }

def emptyData : UserData ℕ :=
  { detections_3d := [], rest := 7 }

/-- C1: `FilterDetections.execute` replaces `detections_3d` with exactly
those elements of the input whose (x, y) pose the area polygon contains
(containment, including its strict treatment of boundary points, is the
geometry library's `contains`, abstracted as the `contains` parameter),
preserving the original order: the result is the input filtered by the
containment predicate, hence a subsequence of the input. -/
theorem claim_C1_filter_exact {α : Type} (contains : Polygon → Point → Bool)
    (self : FilterDetections) (u : UserData α) :
    (FilterDetections.execute contains self u).2.1.detections_3d =
      u.detections_3d.filter
        (fun d => contains self.area_polygon (Point.mk d.2.x d.2.y)) ∧
    List.Sublist (FilterDetections.execute contains self u).2.1.detections_3d
      u.detections_3d := by
  refine ⟨execute_detections_eq_filter contains self u, ?_⟩
  rw [execute_detections_eq_filter]
  exact List.filter_sublist _

/-- C2: the filtered list is a subsequence (by index order) of the input
list: no reordering, no duplicated entries, no entries not in the input. -/
theorem claim_C2_filter_sublist {α : Type} (contains : Polygon → Point → Bool)
    (self : FilterDetections) (u : UserData α) :
    List.Sublist (FilterDetections.execute contains self u).2.1.detections_3d
      u.detections_3d := by
  rw [execute_detections_eq_filter]
  exact List.filter_sublist _

/-- C3: the `Detect3DInArea` composite yields "failed" iff the external
`Detect3D` detector signals failure; otherwise it yields "succeeded" with
the filtered list; and the `FilterDetections` step itself always returns
"succeeded" (no failure path). -/
theorem claim_C3_outcome_iff_detector {α : Type}
    (contains : Polygon → Point → Bool) (self : FilterDetections)
    (dr : Outcome × List Detection) (u : UserData α) :
    ((Detect3DInArea.run contains self dr u).2 = Outcome.failed ↔
      dr.1 = Outcome.failed) ∧
    ((Detect3DInArea.run contains self dr u).2 = Outcome.succeeded ↔
      dr.1 = Outcome.succeeded) ∧
    (dr.1 = Outcome.succeeded →
      (Detect3DInArea.run contains self dr u).1.detections_3d =
        dr.2.filter
          (fun d => contains self.area_polygon (Point.mk d.2.x d.2.y))) ∧
    (FilterDetections.execute contains self u).2.2 = Outcome.succeeded := by
  obtain ⟨o, dets⟩ := dr
  cases o with
  | succeeded =>
    refine ⟨by simp [Detect3DInArea.run, FilterDetections.execute], ?_, ?_, rfl⟩
    · simp [Detect3DInArea.run, FilterDetections.execute]
    · intro _
      simpa [Detect3DInArea.run] using
        execute_detections_eq_filter contains self
          ({ u with detections_3d := dets })
  | failed =>
    exact ⟨by simp [Detect3DInArea.run], by simp [Detect3DInArea.run], by
      intro h; exact absurd h (by simp), rfl⟩

/-- C4: when no detection's (x, y) pose lies inside the polygon, the filter
produces the empty list and still returns "succeeded". -/
theorem claim_C4_none_inside {α : Type} (contains : Polygon → Point → Bool)
    (self : FilterDetections) (u : UserData α)
    (h : ∀ d ∈ u.detections_3d,
      contains self.area_polygon (Point.mk d.2.x d.2.y) = false) :
    (FilterDetections.execute contains self u).2.1.detections_3d = [] ∧
    (FilterDetections.execute contains self u).2.2 = Outcome.succeeded := by
  refine ⟨?_, rfl⟩
  rw [execute_detections_eq_filter]
  simp only [List.filter_eq_nil_iff]
  intro d hd
  simp [h d hd]

/-- Witness for C4 at a concrete input: the spec's polygon and a single
detection at pose (15, 15), which lies outside. -/
theorem claim_C4_witness :
    (FilterDetections.execute boxContains ⟨specPolygon⟩
      outsideData).2.1.detections_3d = [] ∧
    (FilterDetections.execute boxContains ⟨specPolygon⟩
      outsideData).2.2 = Outcome.succeeded :=
  claim_C4_none_inside boxContains ⟨specPolygon⟩ outsideData (by decide)

/-- C5: filtering an empty detection list returns the empty list and
reports "succeeded". -/
theorem claim_C5_empty_list {α : Type} (contains : Polygon → Point → Bool)
    (self : FilterDetections) (u : UserData α)
    (h : u.detections_3d = []) :
    (FilterDetections.execute contains self u).2.1.detections_3d = [] ∧
    (FilterDetections.execute contains self u).2.2 = Outcome.succeeded := by
  refine ⟨?_, rfl⟩
  rw [execute_detections_eq_filter, h]
  rfl

/-- Witness for C5 at a concrete input: the empty detection list. -/
theorem claim_C5_witness :
    (FilterDetections.execute boxContains ⟨specPolygon⟩
      emptyData).2.1.detections_3d = [] ∧
    (FilterDetections.execute boxContains ⟨specPolygon⟩
      emptyData).2.2 = Outcome.succeeded :=
  claim_C5_empty_list boxContains ⟨specPolygon⟩ emptyData rfl

/-- C9: the only effect of `FilterDetections.execute` is replacing the
`detections_3d` entry: the state object, in particular its configured
`area_polygon`, and every other userdata field are unchanged. -/
theorem claim_C9_frame {α : Type} (contains : Polygon → Point → Bool)
    (self : FilterDetections) (u : UserData α) :
    (FilterDetections.execute contains self u).1 = self ∧
    (FilterDetections.execute contains self u).1.area_polygon =
      self.area_polygon ∧
    (FilterDetections.execute contains self u).2.1.rest = u.rest :=
  ⟨rfl, rfl, rfl⟩

/-- C10: the filter is idempotent: running `FilterDetections.execute` on its
own output leaves `detections_3d` unchanged. -/
theorem claim_C10_idempotent {α : Type} (contains : Polygon → Point → Bool)
    (self : FilterDetections) (u : UserData α) :
    (FilterDetections.execute contains self
        (FilterDetections.execute contains self u).2.1).2.1.detections_3d =
      (FilterDetections.execute contains self u).2.1.detections_3d := by
  rw [execute_detections_eq_filter, execute_detections_eq_filter]
  simp [List.filter_filter]

/-- Four initial successes drive the flow from `START` through
`GO_TO_WAIT_FOR_PERSON`, `WAIT_FOR_PERSON` and `GO_TO_PERSON` to
`ASK_FOR_DRINK`. -/
theorem runReceptionist_reaches_askForDrink (l : List Outcome) :
    runReceptionist RState.START
        (Outcome.succeeded :: Outcome.succeeded :: Outcome.succeeded ::
          Outcome.succeeded :: l) =
      (runReceptionist RState.ASK_FOR_DRINK l).map fun p =>
        (RState.START :: RState.GO_TO_WAIT_FOR_PERSON ::
          RState.WAIT_FOR_PERSON :: RState.GO_TO_PERSON :: p.1, p.2) := by
  simp only [runReceptionist_cons, receptionistTransition, Option.map_map]
  cases runReceptionist RState.ASK_FOR_DRINK l <;> rfl

/-- C6: if `WAIT_FOR_PERSON` reports failure, the whole flow terminates
with outcome "failed"; the trace is exactly `START`,
`GO_TO_WAIT_FOR_PERSON`, `WAIT_FOR_PERSON` — none of the later steps
(`GO_TO_PERSON`, `ASK_FOR_DRINK`, `GO_TO_SEATING_AREA`, `LOOK_FOR_SEATS`,
`END`) is executed, whatever outcomes they would have reported. -/
theorem claim_C6_waitForPerson_failure (rest : List Outcome) :
    runReceptionist RState.START
        (Outcome.succeeded :: Outcome.succeeded :: Outcome.failed :: rest) =
      some ([RState.START, RState.GO_TO_WAIT_FOR_PERSON,
        RState.WAIT_FOR_PERSON], Outcome.failed) ∧
    RState.GO_TO_PERSON ∉ [RState.START, RState.GO_TO_WAIT_FOR_PERSON,
      RState.WAIT_FOR_PERSON] ∧
    RState.ASK_FOR_DRINK ∉ [RState.START, RState.GO_TO_WAIT_FOR_PERSON,
      RState.WAIT_FOR_PERSON] ∧
    RState.GO_TO_SEATING_AREA ∉ [RState.START, RState.GO_TO_WAIT_FOR_PERSON,
      RState.WAIT_FOR_PERSON] ∧
    RState.LOOK_FOR_SEATS ∉ [RState.START, RState.GO_TO_WAIT_FOR_PERSON,
      RState.WAIT_FOR_PERSON] ∧
    RState.END ∉ [RState.START, RState.GO_TO_WAIT_FOR_PERSON,
      RState.WAIT_FOR_PERSON] :=
  ⟨rfl, by decide, by decide, by decide, by decide, by decide⟩

/-- C7: `ASK_FOR_DRINK` re-enters itself on failure: in any completed run in
which the first four steps succeed and `ASK_FOR_DRINK` reports failure `n`
times and then succeeds, the trace executes `ASK_FOR_DRINK` exactly `n + 1`
times and enters `GO_TO_SEATING_AREA` exactly once. -/
theorem claim_C7_askForDrink_retry (n : ℕ) (rest : List Outcome)
    (tr : List RState) (out : Outcome)
    (h : runReceptionist RState.START
        (Outcome.succeeded :: Outcome.succeeded :: Outcome.succeeded ::
          Outcome.succeeded ::
            (List.replicate n Outcome.failed ++ Outcome.succeeded :: rest)) =
      some (tr, out)) :
    tr.count RState.ASK_FOR_DRINK = n + 1 ∧
    tr.count RState.GO_TO_SEATING_AREA = 1 := by
  rw [runReceptionist_reaches_askForDrink,
    runReceptionist_askForDrink_loop] at h
  cases hg : runReceptionist RState.GO_TO_SEATING_AREA rest with
  | none => rw [hg] at h; simp at h
  | some q =>
    obtain ⟨ql, qo⟩ := q
    obtain ⟨h1, h2⟩ := runReceptionist_GTSA_shape rest ql qo hg
    rw [hg] at h
    simp only [Option.map_map, Option.map_some', Option.some.injEq,
      Prod.mk.injEq] at h
    obtain ⟨htr, -⟩ := h
    subst h1
    rw [← htr]
    simp [List.count_cons, List.count_append, List.count_replicate]

/-- Witness for C7 at a concrete input: one failure of `ASK_FOR_DRINK`
followed by success, then successes to the end of the flow. -/
theorem claim_C7_witness :
    ([RState.START, RState.GO_TO_WAIT_FOR_PERSON, RState.WAIT_FOR_PERSON,
      RState.GO_TO_PERSON, RState.ASK_FOR_DRINK, RState.ASK_FOR_DRINK,
      RState.GO_TO_SEATING_AREA, RState.LOOK_FOR_SEATS,
      RState.END].count RState.ASK_FOR_DRINK = 1 + 1) ∧
    ([RState.START, RState.GO_TO_WAIT_FOR_PERSON, RState.WAIT_FOR_PERSON,
      RState.GO_TO_PERSON, RState.ASK_FOR_DRINK, RState.ASK_FOR_DRINK,
      RState.GO_TO_SEATING_AREA, RState.LOOK_FOR_SEATS,
      RState.END].count RState.GO_TO_SEATING_AREA = 1) :=
  claim_C7_askForDrink_retry 1
    [Outcome.succeeded, Outcome.succeeded, Outcome.succeeded]
    [RState.START, RState.GO_TO_WAIT_FOR_PERSON, RState.WAIT_FOR_PERSON,
      RState.GO_TO_PERSON, RState.ASK_FOR_DRINK, RState.ASK_FOR_DRINK,
      RState.GO_TO_SEATING_AREA, RState.LOOK_FOR_SEATS, RState.END]
    Outcome.succeeded (by decide)

/-- C8: the wired transition structure is exactly the linear chain
`START → GO_TO_WAIT_FOR_PERSON → WAIT_FOR_PERSON → GO_TO_PERSON →
ASK_FOR_DRINK → GO_TO_SEATING_AREA → LOOK_FOR_SEATS → END → succeeded`
(the spec names the second step GO_TO_WAIT_AREA), with
`WAIT_FOR_PERSON`'s failure wired to the "failed" outcome and
`ASK_FOR_DRINK`'s failure wired back to itself; every other state wires a
transition only for "succeeded", so its "failed" outcome has no transition
(an unhandled transition, not a graceful "failed" flow outcome). -/
theorem claim_C8_transition_table :
    receptionistTransition RState.START Outcome.succeeded =
      some (Sum.inl RState.GO_TO_WAIT_FOR_PERSON) ∧
    receptionistTransition RState.GO_TO_WAIT_FOR_PERSON Outcome.succeeded =
      some (Sum.inl RState.WAIT_FOR_PERSON) ∧
    receptionistTransition RState.WAIT_FOR_PERSON Outcome.succeeded =
      some (Sum.inl RState.GO_TO_PERSON) ∧
    receptionistTransition RState.GO_TO_PERSON Outcome.succeeded =
      some (Sum.inl RState.ASK_FOR_DRINK) ∧
    receptionistTransition RState.ASK_FOR_DRINK Outcome.succeeded =
      some (Sum.inl RState.GO_TO_SEATING_AREA) ∧
    receptionistTransition RState.GO_TO_SEATING_AREA Outcome.succeeded =
      some (Sum.inl RState.LOOK_FOR_SEATS) ∧
    receptionistTransition RState.LOOK_FOR_SEATS Outcome.succeeded =
      some (Sum.inl RState.END) ∧
    receptionistTransition RState.END Outcome.succeeded =
      some (Sum.inr Outcome.succeeded) ∧
    receptionistTransition RState.WAIT_FOR_PERSON Outcome.failed =
      some (Sum.inr Outcome.failed) ∧
    receptionistTransition RState.ASK_FOR_DRINK Outcome.failed =
      some (Sum.inl RState.ASK_FOR_DRINK) ∧
    (∀ s : RState, s ≠ RState.WAIT_FOR_PERSON → s ≠ RState.ASK_FOR_DRINK →
      receptionistTransition s Outcome.failed = none) := by
  decide

end LASR
